import Mathlib

/-!
Shallow embedding of `src/main.js` (sales-bonus repository).

JavaScript numbers are modelled as `Option ℚ`: `some q` is an ordinary
number, `none` stands for NaN (and for `undefined` appearing in an
arithmetic position, since `undefined` op anything evaluates to NaN).
Optional fields of input records are `Option`-typed; an absent field is
`none`.  Fallible code returns `Except String`.
-/

/-- JS `+` on numbers; any NaN/undefined operand yields NaN. -/
def jsAdd : Option ℚ → Option ℚ → Option ℚ
  | some a, some b => some (a + b)
  | _, _ => none

/-- JS `-` on numbers; any NaN/undefined operand yields NaN. -/
def jsSub : Option ℚ → Option ℚ → Option ℚ
  | some a, some b => some (a - b)
  | _, _ => none

/-- JS `*` on numbers; any NaN/undefined operand yields NaN. -/
def jsMul : Option ℚ → Option ℚ → Option ℚ
  | some a, some b => some (a * b)
  | _, _ => none

/-- JS `<` on numbers: false whenever an operand is NaN. -/
def jsLt : Option ℚ → Option ℚ → Bool
  | some a, some b => decide (a < b)
  | _, _ => false

/-- JS `<=` on numbers: false whenever an operand is NaN. -/
def jsLe : Option ℚ → Option ℚ → Bool
  | some a, some b => decide (a ≤ b)
  | _, _ => false

/-- JS truthiness of a number: `0` and NaN are falsy. -/
def truthyNum : Option ℚ → Bool
  | some x => decide (x ≠ 0)
  | none => false

/-- `Math.round`: round half toward positive infinity. -/
def jsMathRound (x : ℚ) : ℚ := ((⌊x + 1 / 2⌋ : ℤ) : ℚ)

/-- `parseFloat(v.toFixed(2))`: round to 2 decimals (ties toward +∞); NaN stays NaN. -/
def jsToFixed2 : Option ℚ → Option ℚ
  | some x => some (((⌊x * 100 + 1 / 2⌋ : ℤ) : ℚ) / 100)
  | none => none

/-- Rendering a possibly-absent string in a JS template literal:
`undefined` prints as the text "undefined". -/
def jsTemplateString : Option String → String
  | some s => s
  | none => "undefined"

/-- Input seller record. -/
structure Seller where
  id : String
  first_name : Option String := none
  last_name : Option String := none
deriving DecidableEq, Repr

/-- Input product record. -/
structure Product where
  sku : String
  purchase_price : Option ℚ := none
deriving DecidableEq, Repr

/-- One line item of a purchase record. -/
structure PurchaseItem where
  sku : String
  sale_price : Option ℚ := none
  quantity : Option ℚ := none
  discount : Option ℚ := none
deriving DecidableEq, Repr

/-- Input purchase record. -/
structure PurchaseRecord where
  seller_id : String
  total_amount : Option ℚ := none
  total_discount : Option ℚ := none
  items : List PurchaseItem := []
deriving DecidableEq, Repr

/-- Per-seller mutable accumulator built by `analyzeSalesData` (the object
created when indexing sellers).  `products_sold` is the JS object used as a
map: a list of key/value pairs in property-insertion order. -/
structure SellerStat where
  id : String
  first_name : Option String
  last_name : Option String
  sales_count : ℕ
  revenue : Option ℚ
  profit : Option ℚ
  products_sold : List (String × Option ℚ)
deriving DecidableEq, Repr

/-- One `{sku, quantity}` entry of `top_products`. -/
structure TopProduct where
  sku : String
  quantity : Option ℚ
deriving DecidableEq, Repr

/-- One element of the output of `analyzeSalesData`. -/
structure SellerReport where
  seller_id : String
  name : String
  revenue : Option ℚ
  profit : Option ℚ
  sales_count : ℕ
  top_products : List TopProduct
  bonus : Option ℚ
deriving DecidableEq, Repr

def errMissingFields : String := "Некорректные данные покупки: отсутствуют sale_price или quantity"

def errBadPriceQty : String := "Цена или количество некорректны"

def errBadDiscount : String := "Скидка должна быть от 0 до 100%"

def errNoData : String := "Данные не предоставлены"

def errSellersKey : String := "data.sellers должен быть непустым массивом"

def errProductsKey : String := "data.products должен быть непустым массивом"

def errRecordsKey : String := "data.purchase_records должен быть непустым массивом"

def errOptionsUndefined : String := "TypeError: Cannot read properties of undefined"

/-- `calculateSimpleRevenue(purchase, _product)` from `src/main.js`:
destructures `discount = 0` (default applies when the field is absent),
throws when `sale_price` or `quantity` is missing, when `sale_price < 0`
or `quantity <= 0`, or when the discount is outside `[0, 100]`; otherwise
returns `sale_price * quantity * (1 - discount/100)`. -/
def calculateSimpleRevenue (purchase : PurchaseItem) (_product : Product) : Except String ℚ :=
  let discount := purchase.discount.getD 0
  match purchase.sale_price, purchase.quantity with
  | some sale_price, some quantity =>
    if sale_price < 0 ∨ quantity ≤ 0 then Except.error errBadPriceQty
    else if discount < 0 ∨ discount > 100 then Except.error errBadDiscount
    else Except.ok (sale_price * quantity * (1 - discount / 100))
  | _, _ => Except.error errMissingFields

/-- `calculateBonusByProfit(index, total, seller)` from `src/main.js`.
The `profit <= 0` test uses JS `<=`, false on NaN; the three percentage
branches compute `Math.round(profit * rate * 100) / 100`, NaN propagating. -/
def calculateBonusByProfit (index total : ℤ) (seller : SellerStat) : Option ℚ :=
  if total ≤ 0 then some 0
  else if index < 0 ∨ total ≤ index then some 0
  else if jsLe seller.profit (some 0) then some 0
  else if index = 0 then Option.map (fun p => jsMathRound (p * (15 / 100) * 100) / 100) seller.profit
  else if index = 1 ∨ index = 2 then Option.map (fun p => jsMathRound (p * (10 / 100) * 100) / 100) seller.profit
  else if index = total - 1 then some 0
  else Option.map (fun p => jsMathRound (p * (5 / 100) * 100) / 100) seller.profit

/-- A revenue strategy: `(item, product) -> number`, may throw. -/
abbrev RevenueStrategy := PurchaseItem → Product → Except String ℚ

/-- A bonus strategy: `(index, total, sellerStat) -> number` (NaN possible). -/
abbrev BonusStrategy := ℤ → ℤ → SellerStat → Option ℚ

/-- The `options` argument object; either strategy property may be absent. -/
structure Options where
  calculateRevenue : Option RevenueStrategy := none
  calculateBonus : Option BonusStrategy := none

/-- The `data` argument object.  A field is `none` when it is absent or not
an array (both throw the same shape error in the source); `some []` is an
empty array, which the source check `!data[key]` does NOT reject. -/
structure InputData where
  sellers : Option (List Seller) := none
  products : Option (List Product) := none
  purchase_records : Option (List PurchaseRecord) := none

/-- The seller accumulator created while indexing sellers: spread of the
seller plus zero-seeded stats fields. -/
def initStat (s : Seller) : SellerStat :=
  { id := s.id, first_name := s.first_name, last_name := s.last_name,
    sales_count := 0, revenue := some 0, profit := some 0, products_sold := [] }

/-- `productIndex[sku]`: the JS object index maps each sku to the LAST
product with that sku (later assignments overwrite earlier ones). -/
def productLookup (products : List Product) (sku : String) : Option Product :=
  products.reverse.find? (fun p => decide (p.sku = sku))

/-- The two lines updating `seller.products_sold[item.sku]`: a falsy
current value (absent, 0 or NaN) is first reset to 0, then the item
quantity is added.  A fresh sku is appended (JS string-key insertion
order). -/
def updateProductsSold (sku : String) (q : Option ℚ)
    (ps : List (String × Option ℚ)) : List (String × Option ℚ) :=
  if ps.any (fun e => decide (e.1 = sku)) then
    ps.map (fun e => if e.1 = sku then (e.1, jsAdd (if truthyNum e.2 then e.2 else some 0) q) else e)
  else
    ps ++ [(sku, jsAdd (some 0) q)]

/-- Body of the inner `record.items.forEach`: unmatched sku skips the item;
otherwise `cost = purchase_price * quantity`, the revenue strategy runs
(its error aborts the batch), profit and `products_sold` are updated. -/
def processItem (calculateRevenue : RevenueStrategy) (products : List Product)
    (item : PurchaseItem) (s : SellerStat) : Except String SellerStat :=
  match productLookup products item.sku with
  | none => Except.ok s
  | some product =>
    let cost := jsMul product.purchase_price item.quantity
    match calculateRevenue item product with
    | Except.error e => Except.error e
    | Except.ok itemRevenue =>
      Except.ok { s with
        profit := jsAdd s.profit (jsSub (some itemRevenue) cost),
        products_sold := updateProductsSold item.sku item.quantity s.products_sold }

/-- The inner `record.items.forEach` loop: items processed left to right,
a strategy error aborting the whole batch. -/
def processItems (calculateRevenue : RevenueStrategy) (products : List Product) :
    List PurchaseItem → SellerStat → Except String SellerStat
  | [], s => Except.ok s
  | item :: rest, s =>
    match processItem calculateRevenue products item s with
    | Except.error e => Except.error e
    | Except.ok s2 => processItems calculateRevenue products rest s2

/-- Per-record mutation of the owning seller: bump `sales_count`, add
`total_amount - total_discount` (no defaulting: an absent field makes the
sum NaN), then run the item loop. -/
def processRecordForSeller (calculateRevenue : RevenueStrategy) (products : List Product)
    (record : PurchaseRecord) (s : SellerStat) : Except String SellerStat :=
  processItems calculateRevenue products record.items
    { s with
      sales_count := s.sales_count + 1,
      revenue := jsAdd s.revenue (jsSub record.total_amount record.total_discount) }

/-- Body of the outer `data.purchase_records.forEach`.  `sellerIndex` maps
an id to the LAST seller object with that id, and that shared object also
sits in `sellerStats`; so the record mutates the last list element whose
id matches `record.seller_id`, and is skipped when none matches. -/
def processRecord (calculateRevenue : RevenueStrategy) (products : List Product)
    (record : PurchaseRecord) : List SellerStat → Except String (List SellerStat)
  | [] => Except.ok []
  | s :: rest =>
    if rest.any (fun t => decide (t.id = record.seller_id)) then
      match processRecord calculateRevenue products record rest with
      | Except.error e => Except.error e
      | Except.ok r => Except.ok (s :: r)
    else if s.id = record.seller_id then
      match processRecordForSeller calculateRevenue products record s with
      | Except.error e => Except.error e
      | Except.ok t => Except.ok (t :: rest)
    else
      Except.ok (s :: rest)

/-- The outer `data.purchase_records.forEach` loop. -/
def processRecords (calculateRevenue : RevenueStrategy) (products : List Product) :
    List PurchaseRecord → List SellerStat → Except String (List SellerStat)
  | [], stats => Except.ok stats
  | record :: rest, stats =>
    match processRecord calculateRevenue products record stats with
    | Except.error e => Except.error e
    | Except.ok stats2 => processRecords calculateRevenue products rest stats2

/-- Indexing plus the purchase-record fold of `analyzeSalesData`. -/
def aggregate (calculateRevenue : RevenueStrategy) (sellers : List Seller)
    (products : List Product) (records : List PurchaseRecord) :
    Except String (List SellerStat) :=
  processRecords calculateRevenue products records (sellers.map initStat)

/-- One step of the stable sort produced by `Array.prototype.sort` with a
numeric comparator `(a, b) => key(b) - key(a)`: a later element moves in
front of an earlier one exactly when its key is strictly greater (NaN
comparisons move nothing). -/
def jsSortInsert (key : α → Option ℚ) (x : α) : List α → List α
  | [] => [x]
  | y :: l => if jsLt (key y) (key x) then x :: y :: l else y :: jsSortInsert key x l

/-- Stable descending sort by a numeric key, as `sort((a,b) => b.k - a.k)`. -/
def jsSortDescBy (key : α → Option ℚ) (l : List α) : List α :=
  l.foldl (fun acc x => jsSortInsert key x acc) []

/-- The numeric value of a digit string (used to order array-index-like
object keys). -/
def keyToNat (s : String) : ℕ :=
  s.toList.foldl (fun n c => n * 10 + (c.toNat - 48)) 0

/-- Whether a JS object key is an array index: the canonical decimal form
of an integer below 2^32 - 1 (all digits, no leading zero except "0").
Such keys enumerate before all other string keys, in ascending numeric
order. -/
def isArrayIndexKey (s : String) : Bool :=
  s.toList.all (fun c => c.isDigit) && decide (s.length > 0) &&
    (decide (s = "0") || decide (s.toList.head? ≠ some '0')) &&
    decide (keyToNat s < 4294967295)

/-- Stable insertion for the ascending numeric ordering of array-index
keys. -/
def jsIndexInsert {α : Type _} (x : String × α) : List (String × α) → List (String × α)
  | [] => [x]
  | y :: l => if keyToNat x.1 < keyToNat y.1 then x :: y :: l else y :: jsIndexInsert x l

/-- Ascending stable sort of array-index keys by numeric value. -/
def jsIndexSort {α : Type _} (l : List (String × α)) : List (String × α) :=
  l.foldl (fun acc x => jsIndexInsert x acc) []

/-- `Object.entries` enumeration order (ECMAScript OrdinaryOwnPropertyKeys):
array-index-like keys first, in ascending numeric order, then the
remaining string keys in property-insertion order. -/
def jsObjectEntries {α : Type _} (ps : List (String × α)) : List (String × α) :=
  jsIndexSort (ps.filter (fun e => isArrayIndexKey e.1)) ++
    ps.filter (fun e => !isArrayIndexKey e.1)

/-- `Object.entries(products_sold).map(...).sort((a,b) => b.quantity - a.quantity).slice(0, 10)`:
the entries come out in JS enumeration order, then the stable sort by
quantity descending, then the first 10. -/
def topProducts (ps : List (String × Option ℚ)) : List TopProduct :=
  (jsSortDescBy (fun t => t.quantity)
    ((jsObjectEntries ps).map (fun e => TopProduct.mk e.1 e.2))).take 10

/-- Projection of one ranked seller stat to its report row: template-string
name, 2-decimal rounding of revenue / profit / bonus, top products. -/
def makeReport (calculateBonus : BonusStrategy) (total index : ℕ) (s : SellerStat) : SellerReport :=
  { seller_id := s.id,
    name := jsTemplateString s.first_name ++ " " ++ jsTemplateString s.last_name,
    revenue := jsToFixed2 s.revenue,
    profit := jsToFixed2 s.profit,
    sales_count := s.sales_count,
    top_products := topProducts s.products_sold,
    bonus := jsToFixed2 (calculateBonus (index : ℤ) (total : ℤ) s) }

/-- The `forEach` assigning bonus and top products followed by the final
`map`, fused: each seller at rank `i` (of `total`) yields one report. -/
def projectAll (calculateBonus : BonusStrategy) (total : ℕ) :
    ℕ → List SellerStat → List SellerReport
  | _, [] => []
  | i, s :: rest => makeReport calculateBonus total i s :: projectAll calculateBonus total (i + 1) rest

/-- `analyzeSalesData(data, options)` from `src/main.js`.  Validation: null
or non-object data throws; each of the three collections throws when absent
or not an array (`none` here) — but an empty array passes the `!data[key]`
test.  `options` is dereferenced unconditionally, so an absent `options`
argument throws a TypeError; absent strategy properties fall back to the
defaults via `||`. -/
def analyzeSalesData (data : Option InputData) (options : Option Options) :
    Except String (List SellerReport) :=
  match data with
  | none => Except.error errNoData
  | some d =>
    match d.sellers with
    | none => Except.error errSellersKey
    | some sellers =>
      match d.products with
      | none => Except.error errProductsKey
      | some products =>
        match d.purchase_records with
        | none => Except.error errRecordsKey
        | some purchase_records =>
          match options with
          | none => Except.error errOptionsUndefined
          | some opts =>
            let calculateRevenue := opts.calculateRevenue.getD calculateSimpleRevenue
            let calculateBonus := opts.calculateBonus.getD calculateBonusByProfit
            match aggregate calculateRevenue sellers products purchase_records with
            | Except.error e => Except.error e
            | Except.ok stats =>
              let sorted := jsSortDescBy (fun s => s.profit) stats
              Except.ok (projectAll calculateBonus sorted.length 0 sorted)

/-- Modelled from the spec (claim C1): the exact condition under which the
claim says the default revenue strategy throws. -/
def simpleRevenueErrorCond (it : PurchaseItem) : Bool :=
  it.sale_price.isNone || it.quantity.isNone ||
    (match it.sale_price with
     | some p => decide (p < 0)
     | none => false) ||
    (match it.quantity with
     | some q => decide (q ≤ 0)
     | none => false) ||
    decide (it.discount.getD 0 < 0) || decide (it.discount.getD 0 > 100)

/-- Modelled from the spec (claim C2), amended: the claimed bonus tiers
with each percentage additionally rounded to 2 decimals (ties toward +∞),
as the code does with `Math.round(... * 100) / 100`. -/
def bonusTiersRounded (index total : ℤ) (p : ℚ) : Option ℚ :=
  if total ≤ 0 ∨ index < 0 ∨ total ≤ index then some 0
  else if p ≤ 0 then some 0
  else if index = 0 then some (((⌊p * (15 / 100) * 100 + 1 / 2⌋ : ℤ) : ℚ) / 100)
  else if index = 1 ∨ index = 2 then some (((⌊p * (10 / 100) * 100 + 1 / 2⌋ : ℤ) : ℚ) / 100)
  else if index = total - 1 then some 0
  else some (((⌊p * (5 / 100) * 100 + 1 / 2⌋ : ℤ) : ℚ) / 100)

/-! ### Concrete sample inputs used by witnesses and counterexamples -/

def itemW : PurchaseItem := { sku := "w", sale_price := some 3, quantity := some 2, discount := none }

def statProfitTenth : SellerStat :=
  { id := "s", first_name := none, last_name := none, sales_count := 0,
    revenue := some 0, profit := some (1 / 10), products_sold := [] }

def sellerAL : Seller := { id := "s1", first_name := some "Ann", last_name := some "Lee" }

def itemP1 : PurchaseItem := { sku := "p1", sale_price := some 5, quantity := some 1 }

def recordC5 : PurchaseRecord := { seller_id := "s1", total_amount := some 10, total_discount := some 1, items := [itemP1] }

def dataC5 : InputData := { sellers := some [sellerAL], products := some [], purchase_records := some [recordC5] }

def productP1 : Product := { sku := "p1", purchase_price := some 2 }

def dataC6 : InputData := { sellers := some [sellerAL], products := some [productP1], purchase_records := some [recordC5] }

def recordC9 : PurchaseRecord := { seller_id := "s1", total_amount := none, total_discount := some 1, items := [itemP1] }

def dataC9 : InputData := { sellers := some [sellerAL], products := some [productP1], purchase_records := some [recordC9] }

def recordC9b : PurchaseRecord := { seller_id := "s1", total_amount := none, total_discount := some 1, items := [] }

def statC9rec : SellerStat := { id := "s1", first_name := some "Ann", last_name := some "Lee", sales_count := 1, revenue := none, profit := some 0, products_sold := [] }

def productNoPrice : Product := { sku := "p1", purchase_price := none }

def statC9item : SellerStat := { id := "s1", first_name := some "Ann", last_name := some "Lee", sales_count := 0, revenue := some 0, profit := none, products_sold := [("p1", jsAdd (some 0) (some 1))] }

def sellerAnnOnly : Seller := { id := "s2", first_name := some "Ann", last_name := none }

def recordC10 : PurchaseRecord := { seller_id := "s2", total_amount := some 4, total_discount := some 1, items := [] }

def dataC10 : InputData := { sellers := some [sellerAnnOnly], products := some [productP1], purchase_records := some [recordC10] }

def reportW : SellerReport := { seller_id := "s1", name := "Ann Lee", revenue := some 0, profit := some 0, sales_count := 0, top_products := [], bonus := some 0 }

def recordZZ : PurchaseRecord := { seller_id := "zz", total_amount := some 1, total_discount := some 0, items := [] }

def itemNope : PurchaseItem := { sku := "nope", sale_price := some 1, quantity := some 1 }

def reportS1C4 : SellerReport := { seller_id := "s1", name := "Ann Lee", revenue := some 9, profit := some 3, sales_count := 1, top_products := [{ sku := "p1", quantity := some 1 }], bonus := some (9/20) }

def reportS2C4 : SellerReport := { seller_id := "s2", name := "Ann undefined", revenue := some 0, profit := some 0, sales_count := 0, top_products := [], bonus := some 0 }

def dataC3ce : InputData := { sellers := some [sellerAL, sellerAnnOnly], products := some [productNoPrice], purchase_records := some [recordC5] }

def reportC3a : SellerReport := { seller_id := "s1", name := "Ann Lee", revenue := some 9, profit := none, sales_count := 1, top_products := [{ sku := "p1", quantity := some 1 }], bonus := none }

def reportC3b : SellerReport := { seller_id := "s2", name := "Ann undefined", revenue := some 0, profit := some 0, sales_count := 0, top_products := [], bonus := some 0 }

def product42 : Product := { sku := "42", purchase_price := some 1 }

def product7 : Product := { sku := "7", purchase_price := some 1 }

def item42 : PurchaseItem := { sku := "42", sale_price := some 3, quantity := some 1 }

def item7 : PurchaseItem := { sku := "7", sale_price := some 3, quantity := some 1 }

def recordC8 : PurchaseRecord := { seller_id := "s1", total_amount := some 4, total_discount := some 1, items := [item42, item7] }

def dataC8 : InputData := { sellers := some [sellerAL], products := some [product42, product7], purchase_records := some [recordC8] }

def reportC8 : SellerReport := { seller_id := "s1", name := "Ann Lee", revenue := some 3, profit := some 4, sales_count := 1, top_products := [{ sku := "7", quantity := some 1 }, { sku := "42", quantity := some 1 }], bonus := some (3/5) }

/-! ### Lemmas about the JS comparison and the stable sort -/

theorem jsLt_true_iff {a b : Option ℚ} :
    jsLt a b = true ↔ ∃ qa qb, a = some qa ∧ b = some qb ∧ qa < qb := by
  cases a <;> cases b <;> simp [jsLt]

theorem jsLt_none_left (b : Option ℚ) : jsLt none b = false := by cases b <;> rfl

theorem jsLt_none_right (a : Option ℚ) : jsLt a none = false := by cases a <;> rfl

theorem jsLt_some_iff_false {qa qb : ℚ} : jsLt (some qa) (some qb) = false ↔ qb ≤ qa := by
  simp [jsLt, not_lt]

/-- If `y < x` (JS-true) and not `y < z` (JS-false) then not `x < z`. -/
theorem jsLt_false_of_lt {x y z : Option ℚ} (hyx : jsLt y x = true) (hyz : jsLt y z = false) :
    jsLt x z = false := by
  rcases jsLt_true_iff.mp hyx with ⟨qy, qx, hy, hx, hlt⟩
  subst hy; subst hx
  cases z with
  | none => exact jsLt_none_right _
  | some qz =>
    rw [jsLt_some_iff_false] at hyz ⊢
    exact le_trans hyz (le_of_lt hlt)

theorem jsSortInsert_perm (key : α → Option ℚ) (x : α) (l : List α) :
    (jsSortInsert key x l).Perm (x :: l) := by
  induction l with
  | nil => simp [jsSortInsert]
  | cons y l ih =>
    simp only [jsSortInsert]
    split
    · exact List.Perm.refl _
    · exact (ih.cons y).trans (List.Perm.swap x y l)

theorem mem_jsSortInsert {key : α → Option ℚ} {x z : α} {l : List α}
    (h : z ∈ jsSortInsert key x l) : z = x ∨ z ∈ l := by
  have := (jsSortInsert_perm key x l).mem_iff.mp h
  simpa using this

theorem jsSortInsert_pairwise {key : α → Option ℚ} {x : α} {l : List α}
    (h : l.Pairwise (fun a b => jsLt (key a) (key b) = false)) :
    (jsSortInsert key x l).Pairwise (fun a b => jsLt (key a) (key b) = false) := by
  induction l with
  | nil => simp [jsSortInsert]
  | cons y l ih =>
    rcases List.pairwise_cons.mp h with ⟨hy, hl⟩
    simp only [jsSortInsert]
    split
    · next hyx =>
      refine List.pairwise_cons.mpr ⟨?_, h⟩
      intro z hz
      rcases List.mem_cons.mp hz with hz | hz
      · subst hz
        rcases jsLt_true_iff.mp hyx with ⟨qy, qx, hky, hkx, hlt⟩
        rw [hkx, hky, jsLt_some_iff_false]
        exact le_of_lt hlt
      · exact jsLt_false_of_lt hyx (hy z hz)
    · next hyx =>
      refine List.pairwise_cons.mpr ⟨?_, ih hl⟩
      intro z hz
      rcases mem_jsSortInsert hz with hz | hz
      · subst hz
        exact Bool.of_not_eq_true hyx
      · exact hy z hz

theorem jsSortDescBy_loop_perm (key : α → Option ℚ) (l acc : List α) :
    (List.foldl (fun acc x => jsSortInsert key x acc) acc l).Perm (acc ++ l) := by
  induction l generalizing acc with
  | nil => simp
  | cons x l ih =>
    simp only [List.foldl_cons]
    refine (ih (jsSortInsert key x acc)).trans ?_
    refine (((jsSortInsert_perm key x acc).append_right l).trans ?_)
    exact List.perm_middle.symm

theorem jsSortDescBy_perm (key : α → Option ℚ) (l : List α) :
    (jsSortDescBy key l).Perm l := by
  simpa using jsSortDescBy_loop_perm key l []

theorem jsSortDescBy_loop_pairwise (key : α → Option ℚ) (l : List α) {acc : List α}
    (h : acc.Pairwise (fun a b => jsLt (key a) (key b) = false)) :
    (List.foldl (fun acc x => jsSortInsert key x acc) acc l).Pairwise
      (fun a b => jsLt (key a) (key b) = false) := by
  induction l generalizing acc with
  | nil => simpa using h
  | cons x l ih => exact ih (jsSortInsert_pairwise h)

theorem jsSortDescBy_pairwise (key : α → Option ℚ) (l : List α) :
    (jsSortDescBy key l).Pairwise (fun a b => jsLt (key a) (key b) = false) :=
  jsSortDescBy_loop_pairwise key l List.Pairwise.nil

/-- In a descending-sorted list headed by a key strictly below `v`, no
element has key `v`. -/
theorem filter_key_eq_nil {key : α → Option ℚ} {y : α} {l : List α} {qy v : ℚ}
    (hky : key y = some qy) (hlt : qy < v)
    (h : (y :: l).Pairwise (fun a b => jsLt (key a) (key b) = false)) :
    (y :: l).filter (fun a => decide (key a = some v)) = [] := by
  rw [List.filter_eq_nil_iff]
  intro a ha
  simp only [decide_eq_true_eq]
  intro hka
  rcases List.mem_cons.mp ha with rfl | ha
  · rw [hka] at hky
    exact absurd (Option.some_injective _ hky) (by exact fun h => absurd h (by rintro rfl; exact lt_irrefl _ hlt))
  · have := (List.pairwise_cons.mp h).1 a ha
    rw [hky, hka, jsLt_some_iff_false] at this
    exact absurd hlt (not_lt.mpr this)

theorem jsSortInsert_filter {key : α → Option ℚ} {l : List α} (x : α) (v : ℚ)
    (h : l.Pairwise (fun a b => jsLt (key a) (key b) = false)) :
    (jsSortInsert key x l).filter (fun a => decide (key a = some v)) =
      l.filter (fun a => decide (key a = some v)) ++
        (if key x = some v then [x] else []) := by
  induction l with
  | nil => simp [jsSortInsert, List.filter]; split <;> simp_all
  | cons y l ih =>
    simp only [jsSortInsert]
    split
    · next hyx =>
      rcases jsLt_true_iff.mp hyx with ⟨qy, qx, hky, hkx, hlt⟩
      by_cases hxv : key x = some v
      · have hqxv : qx = v := by rw [hxv] at hkx; exact (Option.some_injective _ hkx.symm)
        have hnil : (y :: l).filter (fun a => decide (key a = some v)) = [] :=
          filter_key_eq_nil hky (hqxv ▸ hlt) h
        rw [List.filter_cons, if_pos (by simpa using hxv), hnil, if_pos hxv]
        rfl
      · rw [List.filter_cons, if_neg (by simpa using hxv), if_neg hxv, List.append_nil]
    · next hyx =>
      have hl := (List.pairwise_cons.mp h).2
      rw [List.filter_cons, List.filter_cons]
      by_cases hyv : key y = some v
      · rw [if_pos (by simpa using hyv), if_pos (by simpa using hyv), ih hl, List.cons_append]
      · rw [if_neg (by simpa using hyv), if_neg (by simpa using hyv), ih hl]

theorem jsSortDescBy_loop_filter {key : α → Option ℚ} (l : List α) (v : ℚ) {acc : List α}
    (h : acc.Pairwise (fun a b => jsLt (key a) (key b) = false)) :
    (List.foldl (fun acc x => jsSortInsert key x acc) acc l).filter
        (fun a => decide (key a = some v)) =
      acc.filter (fun a => decide (key a = some v)) ++
        l.filter (fun a => decide (key a = some v)) := by
  induction l generalizing acc with
  | nil => simp
  | cons x l ih =>
    simp only [List.foldl_cons]
    rw [ih (jsSortInsert_pairwise h), jsSortInsert_filter x v h, List.filter_cons]
    by_cases hxv : key x = some v
    · rw [if_pos hxv, if_pos (by simpa using hxv)]
      simp
    · rw [if_neg hxv, if_neg (by simpa using hxv)]
      simp

/-- Stability of the JS sort: for every concrete key value `v`, the
elements whose key is `v` appear in the sorted output in exactly their
original relative order. -/
theorem jsSortDescBy_filter (key : α → Option ℚ) (l : List α) (v : ℚ) :
    (jsSortDescBy key l).filter (fun a => decide (key a = some v)) =
      l.filter (fun a => decide (key a = some v)) := by
  simpa using jsSortDescBy_loop_filter l v List.Pairwise.nil

/-! ### Structural lemmas about aggregation -/

theorem processItem_ok_fields {cr : RevenueStrategy} {products : List Product}
    {item : PurchaseItem} {s s' : SellerStat}
    (h : processItem cr products item s = Except.ok s') :
    s'.id = s.id ∧ s'.first_name = s.first_name ∧ s'.last_name = s.last_name ∧
      s'.sales_count = s.sales_count ∧ s'.revenue = s.revenue := by
  unfold processItem at h
  split at h
  · cases h
    exact ⟨rfl, rfl, rfl, rfl, rfl⟩
  · split at h
    · cases h
    · cases h
      exact ⟨rfl, rfl, rfl, rfl, rfl⟩

theorem processItems_ok_fields {cr : RevenueStrategy} {products : List Product} :
    ∀ {items : List PurchaseItem} {s s' : SellerStat},
      processItems cr products items s = Except.ok s' →
      s'.id = s.id ∧ s'.first_name = s.first_name ∧ s'.last_name = s.last_name ∧
        s'.sales_count = s.sales_count ∧ s'.revenue = s.revenue := by
  intro items
  induction items with
  | nil =>
    intro s s' h
    cases h
    exact ⟨rfl, rfl, rfl, rfl, rfl⟩
  | cons item rest ih =>
    intro s s' h
    unfold processItems at h
    split at h
    · cases h
    · next s2 hi =>
      obtain ⟨h1, h2, h3, h4, h5⟩ := ih h
      obtain ⟨g1, g2, g3, g4, g5⟩ := processItem_ok_fields hi
      exact ⟨h1.trans g1, h2.trans g2, h3.trans g3, h4.trans g4, h5.trans g5⟩

theorem processRecordForSeller_ok_names {cr : RevenueStrategy} {products : List Product}
    {record : PurchaseRecord} {s s' : SellerStat}
    (h : processRecordForSeller cr products record s = Except.ok s') :
    s'.id = s.id ∧ s'.first_name = s.first_name ∧ s'.last_name = s.last_name := by
  obtain ⟨h1, h2, h3, _, _⟩ := processItems_ok_fields h
  exact ⟨h1, h2, h3⟩

/-- One purchase record rewrites the stats list pointwise: every element
keeps its identity fields; an element not carrying the record's seller id
is untouched; at most one element (whose id IS the record's seller id) is
replaced by the result of `processRecordForSeller`. -/
theorem processRecord_ok_spec {cr : RevenueStrategy} {products : List Product}
    {record : PurchaseRecord} :
    ∀ {stats stats' : List SellerStat},
      processRecord cr products record stats = Except.ok stats' →
      List.Forall₂ (fun t t' =>
        t'.id = t.id ∧ t'.first_name = t.first_name ∧ t'.last_name = t.last_name ∧
          (t.id ≠ record.seller_id → t' = t) ∧
          (t' = t ∨ (t.id = record.seller_id ∧
            processRecordForSeller cr products record t = Except.ok t')))
        stats stats' := by
  intro stats
  induction stats with
  | nil =>
    intro stats' h
    cases h
    exact List.Forall₂.nil
  | cons s rest ih =>
    intro stats' h
    unfold processRecord at h
    split at h
    · split at h
      · cases h
      · next r hr =>
        cases h
        exact List.Forall₂.cons ⟨rfl, rfl, rfl, fun _ => rfl, Or.inl rfl⟩ (ih hr)
    · split at h
      · next hsid =>
        split at h
        · cases h
        · next t ht =>
          cases h
          refine List.Forall₂.cons ?_ ?_
          · obtain ⟨h1, h2, h3⟩ := processRecordForSeller_ok_names ht
            exact ⟨h1, h2, h3, fun hne => absurd hsid hne, Or.inr ⟨hsid, ht⟩⟩
          · exact List.forall₂_same.mpr fun x _ => ⟨rfl, rfl, rfl, fun _ => rfl, Or.inl rfl⟩
      · cases h
        exact List.forall₂_same.mpr fun x _ => ⟨rfl, rfl, rfl, fun _ => rfl, Or.inl rfl⟩

theorem forall₂_mem_right {α β : Type _} {R : α → β → Prop} :
    ∀ {l1 : List α} {l2 : List β}, List.Forall₂ R l1 l2 → ∀ {b}, b ∈ l2 → ∃ a ∈ l1, R a b := by
  intro l1 l2 h
  induction h with
  | nil => intro b hb; cases hb
  | cons hr _ ih =>
    intro b hb
    rcases List.mem_cons.mp hb with rfl | hb
    · exact ⟨_, List.mem_cons_self _ _, hr⟩
    · obtain ⟨a, ha, har⟩ := ih hb
      exact ⟨a, List.mem_cons_of_mem _ ha, har⟩

theorem processRecords_append {cr : RevenueStrategy} {products : List Product}
    (l1 l2 : List PurchaseRecord) :
    ∀ stats, processRecords cr products (l1 ++ l2) stats =
      match processRecords cr products l1 stats with
      | Except.error e => Except.error e
      | Except.ok s2 => processRecords cr products l2 s2 := by
  induction l1 with
  | nil => intro stats; rfl
  | cons r l1 ih =>
    intro stats
    simp only [List.cons_append, processRecords]
    cases hr : processRecord cr products r stats with
    | error e => rfl
    | ok s2 => exact ih s2

theorem processRecords_length {cr : RevenueStrategy} {products : List Product} :
    ∀ {records : List PurchaseRecord} {stats stats' : List SellerStat},
      processRecords cr products records stats = Except.ok stats' →
      stats'.length = stats.length := by
  intro records
  induction records with
  | nil =>
    intro _ _ h
    cases h
    rfl
  | cons r rest ih =>
    intro stats stats' h
    unfold processRecords at h
    split at h
    · cases h
    · next s2 hr => exact (ih h).trans (processRecord_ok_spec hr).length_eq.symm

theorem processRecord_map_names {cr : RevenueStrategy} {products : List Product}
    {record : PurchaseRecord} {stats stats' : List SellerStat}
    (h : processRecord cr products record stats = Except.ok stats') :
    stats'.map (fun t => (t.id, t.first_name, t.last_name)) =
      stats.map (fun t => (t.id, t.first_name, t.last_name)) := by
  have hF := processRecord_ok_spec h
  clear h
  induction hF with
  | nil => rfl
  | cons hr _ ih =>
    obtain ⟨h1, h2, h3, _, _⟩ := hr
    simp only [List.map_cons, ih, List.cons.injEq, and_true]
    simp [h1, h2, h3]

theorem processRecords_map_names {cr : RevenueStrategy} {products : List Product} :
    ∀ {records : List PurchaseRecord} {stats stats' : List SellerStat},
      processRecords cr products records stats = Except.ok stats' →
      stats'.map (fun t => (t.id, t.first_name, t.last_name)) =
        stats.map (fun t => (t.id, t.first_name, t.last_name)) := by
  intro records
  induction records with
  | nil =>
    intro _ _ h
    cases h
    rfl
  | cons r rest ih =>
    intro stats stats' h
    unfold processRecords at h
    split at h
    · cases h
    · next s2 hr => exact (ih h).trans (processRecord_map_names hr)

/-- Membership invariant carried through the record loop: any per-stat
property preserved by every record update (and by doing nothing) holds for
all final stats. -/
theorem processRecords_mem_inv {cr : RevenueStrategy} {products : List Product}
    (Q : SellerStat → Prop) :
    ∀ {records : List PurchaseRecord},
      (∀ record ∈ records, ∀ t t', t.id = record.seller_id →
        processRecordForSeller cr products record t = Except.ok t' → Q t → Q t') →
      ∀ {stats stats' : List SellerStat},
        processRecords cr products records stats = Except.ok stats' →
        (∀ t ∈ stats, Q t) → ∀ t' ∈ stats', Q t' := by
  intro records
  induction records with
  | nil =>
    intro _ stats stats' h hQ
    cases h
    exact hQ
  | cons r rest ih =>
    intro hstep stats stats' h hQ
    unfold processRecords at h
    split at h
    · cases h
    · next s2 hr =>
      refine ih (fun rec hrec => hstep rec (List.mem_cons_of_mem _ hrec)) h ?_
      intro t' ht'
      obtain ⟨t, ht, hrel⟩ := forall₂_mem_right (processRecord_ok_spec hr) ht'
      rcases hrel.2.2.2.2 with rfl | ⟨hid, hupd⟩
      · exact hQ t' ht
      · exact hstep r (List.mem_cons_self _ _) t t' hid hupd (hQ t ht)

/-- A record whose seller id matches no stat is skipped entirely. -/
theorem processRecord_skip {cr : RevenueStrategy} {products : List Product}
    {record : PurchaseRecord} :
    ∀ {stats : List SellerStat}, (∀ t ∈ stats, t.id ≠ record.seller_id) →
      processRecord cr products record stats = Except.ok stats := by
  intro stats
  induction stats with
  | nil => intro _; rfl
  | cons s rest ih =>
    intro hne
    have hA : rest.any (fun t => decide (t.id = record.seller_id)) = false := by
      rw [List.any_eq_false]
      intro t ht
      simpa using hne t (List.mem_cons_of_mem _ ht)
    unfold processRecord
    rw [hA]
    simp only [Bool.false_eq_true, if_false]
    rw [if_neg (hne s (List.mem_cons_self _ _))]

theorem projectAll_length (cb : BonusStrategy) (total : ℕ) :
    ∀ (i : ℕ) (l : List SellerStat), (projectAll cb total i l).length = l.length := by
  intro i l
  induction l generalizing i with
  | nil => rfl
  | cons s rest ih => simp [projectAll, ih]

theorem projectAll_mem {cb : BonusStrategy} {total : ℕ} :
    ∀ {i : ℕ} {l : List SellerStat} {r : SellerReport}, r ∈ projectAll cb total i l →
      ∃ s ∈ l, ∃ k, r = makeReport cb total k s := by
  intro i l
  induction l generalizing i with
  | nil => intro r hr; cases hr
  | cons s rest ih =>
    intro r hr
    rcases List.mem_cons.mp hr with rfl | hr
    · exact ⟨s, List.mem_cons_self _ _, i, rfl⟩
    · obtain ⟨t, ht, k, hk⟩ := ih hr
      exact ⟨t, List.mem_cons_of_mem _ ht, k, hk⟩

theorem projectAll_chain' {cb : BonusStrategy} {total : ℕ}
    {S : SellerStat → SellerStat → Prop} {T : SellerReport → SellerReport → Prop}
    (hST : ∀ a b i j, S a b → T (makeReport cb total i a) (makeReport cb total j b)) :
    ∀ (l : List SellerStat) (i : ℕ), List.Chain' S l → List.Chain' T (projectAll cb total i l)
  | [], _, _ => List.chain'_nil
  | [s], i, _ => List.chain'_singleton _
  | s :: s2 :: rest, i, h => by
    have h' := List.chain'_cons.mp h
    show List.Chain' T (makeReport cb total i s :: makeReport cb total (i + 1) s2 ::
      projectAll cb total (i + 2) rest)
    exact List.chain'_cons.mpr ⟨hST _ _ _ _ h'.1,
      projectAll_chain' hST (s2 :: rest) (i + 1) h'.2⟩

theorem jsToFixed2_zero : jsToFixed2 (some 0) = some 0 := by
  norm_num [jsToFixed2]

theorem topProducts_nil : topProducts [] = [] := rfl

theorem calculateBonusByProfit_zero {i n : ℤ} {t : SellerStat} (h : t.profit = some 0) :
    calculateBonusByProfit i n t = some 0 := by
  simp [calculateBonusByProfit, h, jsLe]

/-! ### Claim C1 -/

/-- C1: `calculateSimpleRevenue` throws exactly when `sale_price` or
`quantity` is missing, `sale_price < 0`, `quantity <= 0`, or the discount
(defaulting to 0 when absent) lies outside `[0, 100]`; otherwise it
returns `sale_price * quantity * (1 - discount/100)`; in particular for
`{sale_price: 100, quantity: 2, discount: 10}` it returns 180. -/
theorem claim_C1 (it : PurchaseItem) (prod : Product) :
    ((calculateSimpleRevenue it prod).isOk = !simpleRevenueErrorCond it) ∧
    (∀ p q, it.sale_price = some p → it.quantity = some q →
      simpleRevenueErrorCond it = false →
      calculateSimpleRevenue it prod = Except.ok (p * q * (1 - it.discount.getD 0 / 100))) ∧
    calculateSimpleRevenue
      { sku := "x", sale_price := some 100, quantity := some 2, discount := some 10 } prod =
      Except.ok 180 := by
  refine ⟨?_, ?_, ?_⟩
  · cases hsp : it.sale_price with
    | none => simp [calculateSimpleRevenue, simpleRevenueErrorCond, hsp, Except.isOk, Except.toBool]
    | some p =>
      cases hq : it.quantity with
      | none =>
        simp [calculateSimpleRevenue, simpleRevenueErrorCond, hsp, hq, Except.isOk, Except.toBool]
      | some q =>
        simp only [calculateSimpleRevenue, simpleRevenueErrorCond, hsp, hq]
        split_ifs with h1 h2
        · rcases h1 with h | h <;> simp [Except.isOk, Except.toBool, h]
        · push_neg at h1
          rcases h2 with h | h <;>
            simp [Except.isOk, Except.toBool, h, not_lt.mpr h1.1, not_le.mpr h1.2]
        · push_neg at h1 h2
          simp [Except.isOk, Except.toBool, not_lt.mpr h1.1, not_le.mpr h1.2,
            not_lt.mpr h2.1, not_lt.mpr h2.2]
  · intro p q hp hq hcond
    simp only [simpleRevenueErrorCond, hp, hq, Bool.or_eq_false_iff,
      decide_eq_false_iff_not] at hcond
    obtain ⟨⟨⟨⟨_, hpneg⟩, hqz⟩, hd1⟩, hd2⟩ := hcond
    simp [calculateSimpleRevenue, hp, hq, hpneg, hqz, hd1, hd2]
  · simp [calculateSimpleRevenue]
    norm_num

/-- Witness for C1 at a concrete item with no discount field. -/
theorem claim_C1_witness : calculateSimpleRevenue itemW { sku := "w" } = Except.ok 6 := by
  have h := (claim_C1 itemW { sku := "w" }).2.1 3 2 rfl rfl (by norm_num [simpleRevenueErrorCond, itemW])
  rw [h]
  norm_num [itemW]

/-! ### Claim C2 -/

/-- C2 (amended): `calculateBonusByProfit` returns 0 on out-of-range rank,
non-positive total or non-positive profit, and otherwise returns the tier
percentage of profit ROUNDED to 2 decimal places (not the raw product as
the claim states). -/
theorem claim_C2_amended (index total : ℤ) (s : SellerStat) (p : ℚ) (h : s.profit = some p) :
    calculateBonusByProfit index total s = bonusTiersRounded index total p := by
  unfold calculateBonusByProfit bonusTiersRounded
  rw [h]
  split_ifs <;> simp_all [jsLe, jsMathRound] <;> omega

/-- C2 counterexample: at rank 0 of 1 with profit 0.1 the code returns
0.02 (rounded), not profit * 0.15 = 0.015 as the claim states. -/
theorem claim_C2_counterexample :
    calculateBonusByProfit 0 1 statProfitTenth = some (1 / 50) ∧
      some ((1 : ℚ) / 50) ≠ some ((1 / 10) * (15 / 100) : ℚ) := by
  constructor
  · simp only [calculateBonusByProfit, statProfitTenth, jsLe, jsMathRound]
    norm_num
  · intro hcon
    rw [Option.some_inj] at hcon
    norm_num at hcon

/-- Witness for C2 (amended) at rank 3 of 6. -/
theorem claim_C2_witness :
    calculateBonusByProfit 3 6 statProfitTenth = bonusTiersRounded 3 6 (1 / 10) :=
  claim_C2_amended 3 6 statProfitTenth (1 / 10) rfl

theorem isArrayIndexKey_p1 : isArrayIndexKey "p1" = false := by decide

theorem jsObjectEntries_nil {α : Type _} : jsObjectEntries ([] : List (String × α)) = [] := rfl

theorem jsObjectEntries_p1 {α : Type _} (v : α) : jsObjectEntries [("p1", v)] = [("p1", v)] := by
  simp [jsObjectEntries, jsIndexSort, isArrayIndexKey_p1]

/-! ### Claim C5 -/

/-- C5 (refuting the empty-collection part): with `data.products = []`
(empty array) `analyzeSalesData` does NOT throw: the `!data[key]` check
misses empty arrays (an empty array is truthy), although the error message
itself promises a non-empty-array check.  The call returns a normal
report. -/
theorem claim_C5_empty_products_accepted :
    analyzeSalesData (some dataC5) (some {}) =
      Except.ok [{ seller_id := "s1", name := "Ann Lee", revenue := some 9, profit := some 0,
                   sales_count := 1, top_products := [], bonus := some 0 }] := by
  simp [analyzeSalesData, dataC5, sellerAL, recordC5, itemP1, aggregate, processRecords,
    processRecord, processRecordForSeller, processItems, processItem, productLookup,
    updateProductsSold, initStat, jsSortDescBy, jsSortInsert, topProducts, jsObjectEntries_nil, jsObjectEntries_p1, jsIndexSort, jsIndexInsert, isArrayIndexKey_p1, projectAll,
    makeReport, calculateSimpleRevenue, calculateBonusByProfit, jsAdd, jsSub, jsMul, jsLt,
    jsLe, truthyNum, jsMathRound, jsToFixed2, jsTemplateString, Option.getD]
  norm_num

/-! ### Claim C6 -/

/-- C6 counterexample: on perfectly valid data, omitting the `options`
argument makes `analyzeSalesData` throw (the code dereferences
`options.calculateRevenue` unconditionally), contradicting the claim that
omitting `options` does not make the call fail. -/
theorem claim_C6_counterexample :
    analyzeSalesData (some dataC6) none = Except.error errOptionsUndefined := rfl

/-- C6 (amended): the two strategy PROPERTIES are optional — when either
is absent the built-in defaults are used and the result is the one
obtained by passing the defaults explicitly; but the `options` ARGUMENT
itself is mandatory: omitting it throws a TypeError. -/
theorem claim_C6_amended :
    (∀ (d : InputData) (o : Options),
      analyzeSalesData (some d) (some o) =
        analyzeSalesData (some d)
          (some { calculateRevenue := some (o.calculateRevenue.getD calculateSimpleRevenue),
                  calculateBonus := some (o.calculateBonus.getD calculateBonusByProfit) })) ∧
    (∀ (sellers : List Seller) (products : List Product) (records : List PurchaseRecord),
      analyzeSalesData
        (some { sellers := some sellers, products := some products,
                purchase_records := some records })
        none = Except.error errOptionsUndefined) := by
  constructor
  · intro d o
    rcases d with ⟨s, p, r⟩
    cases s <;> cases p <;> cases r <;> simp [analyzeSalesData]
  · intro sellers products records
    rfl

/-! ### Claim C9 -/

theorem jsMul_none_left (x : Option ℚ) : jsMul none x = none := by cases x <;> rfl

theorem jsSub_none_left (x : Option ℚ) : jsSub none x = none := by cases x <;> rfl

theorem jsSub_none_right (x : Option ℚ) : jsSub x none = none := by cases x <;> rfl

theorem jsAdd_none_right (x : Option ℚ) : jsAdd x none = none := by cases x <;> rfl

/-- C9 (amended): absent numeric fields are NOT defaulted to 0.  A record
missing `total_amount` or `total_discount` makes the owning seller's
revenue NaN, and a matched product with absent `purchase_price` makes the
seller's profit NaN (the item's revenue is not added as-is). -/
theorem claim_C9_amended :
    (∀ (cr : RevenueStrategy) (products : List Product) (record : PurchaseRecord)
      (s s2 : SellerStat),
      (record.total_amount = none ∨ record.total_discount = none) →
      processRecordForSeller cr products record s = Except.ok s2 → s2.revenue = none) ∧
    (∀ (cr : RevenueStrategy) (products : List Product) (item : PurchaseItem)
      (s s2 : SellerStat) (p : Product),
      productLookup products item.sku = some p → p.purchase_price = none →
      processItem cr products item s = Except.ok s2 → s2.profit = none) := by
  constructor
  · intro cr products record s s2 hmiss h
    unfold processRecordForSeller at h
    obtain ⟨_, _, _, _, hrev⟩ := processItems_ok_fields h
    rcases hmiss with hm | hm <;>
      simp [hm, jsSub_none_left, jsSub_none_right, jsAdd_none_right] at hrev <;>
      exact hrev
  · intro cr products item s s2 p hlook hpp h
    unfold processItem at h
    rw [hlook] at h
    dsimp only at h
    cases hcr : cr item p with
    | error e =>
      rw [hcr] at h
      cases h
    | ok r =>
      rw [hcr] at h
      cases h
      simp [hpp, jsMul_none_left, jsSub_none_right, jsAdd_none_right]

/-- C9 counterexample: a record with `total_amount` absent yields an
output `revenue` of NaN, not the 0-defaulted sum `0 + (0 - 1)` the claim
implies. -/
theorem claim_C9_counterexample :
    analyzeSalesData (some dataC9) (some {}) =
      Except.ok [{ seller_id := "s1", name := "Ann Lee", revenue := none, profit := some 3,
                   sales_count := 1, top_products := [{ sku := "p1", quantity := some 1 }],
                   bonus := some (9 / 20) }] ∧
    (none : Option ℚ) ≠ some ((0 : ℚ) + (0 - 1)) := by
  constructor
  · simp [analyzeSalesData, dataC9, sellerAL, recordC9, itemP1, productP1, aggregate,
      processRecords, processRecord, processRecordForSeller, processItems, processItem,
      productLookup, updateProductsSold, initStat, jsSortDescBy, jsSortInsert, topProducts, jsObjectEntries_nil, jsObjectEntries_p1, jsIndexSort, jsIndexInsert, isArrayIndexKey_p1,
      projectAll, makeReport, calculateSimpleRevenue, calculateBonusByProfit, jsAdd, jsSub,
      jsMul, jsLt, jsLe, truthyNum, jsMathRound, jsToFixed2, jsTemplateString, Option.getD]
    norm_num [jsSortDescBy, jsSortInsert, projectAll, makeReport, topProducts, jsObjectEntries_nil, jsObjectEntries_p1, jsIndexSort, jsIndexInsert, isArrayIndexKey_p1, jsToFixed2,
      calculateBonusByProfit, jsLe, jsLt, jsMathRound, jsTemplateString, updateProductsSold]
    rfl
  · simp

/-- Witness for C9 (amended): both halves applied at concrete inputs. -/
theorem claim_C9_witness :
    processRecordForSeller calculateSimpleRevenue [] recordC9b (initStat sellerAL) =
        Except.ok statC9rec ∧
      statC9rec.revenue = none ∧
      processItem calculateSimpleRevenue [productNoPrice] itemP1 (initStat sellerAL) =
        Except.ok statC9item ∧
      statC9item.profit = none := by
  refine ⟨rfl, ?_, rfl, ?_⟩
  · exact claim_C9_amended.1 calculateSimpleRevenue [] recordC9b (initStat sellerAL)
      statC9rec (Or.inl rfl) rfl
  · exact claim_C9_amended.2 calculateSimpleRevenue [productNoPrice] itemP1 (initStat sellerAL)
      statC9item productNoPrice rfl rfl rfl

/-! ### Claim C10 -/

/-- C10 counterexample: a seller with only a `first_name` gets the report
name "Ann undefined" (template literal renders the absent `last_name` as
the text "undefined"), not "Ann" as the claim states. -/
theorem claim_C10_counterexample :
    analyzeSalesData (some dataC10) (some {}) =
      Except.ok [{ seller_id := "s2", name := "Ann undefined", revenue := some 3,
                   profit := some 0, sales_count := 1, top_products := [],
                   bonus := some 0 }] ∧
    "Ann undefined" ≠ "Ann" := by
  constructor
  · simp [analyzeSalesData, dataC10, sellerAnnOnly, recordC10, productP1, aggregate,
      processRecords, processRecord, processRecordForSeller, processItems, processItem,
      productLookup, updateProductsSold, initStat, jsSortDescBy, jsSortInsert, topProducts, jsObjectEntries_nil, jsObjectEntries_p1, jsIndexSort, jsIndexInsert, isArrayIndexKey_p1,
      projectAll, makeReport, calculateSimpleRevenue, calculateBonusByProfit, jsAdd, jsSub,
      jsMul, jsLt, jsLe, truthyNum, jsMathRound, jsToFixed2, jsTemplateString, Option.getD]
    norm_num
  · simp

/-- C10 (amended): every report's `name` is
`first_name ++ " " ++ last_name` with each ABSENT part rendered as the
text "undefined" (no trimming, no empty-string default). -/
theorem claim_C10_amended (sellers : List Seller) (products : List Product)
    (records : List PurchaseRecord) (o : Options) (out : List SellerReport)
    (h : analyzeSalesData
      (some { sellers := some sellers, products := some products,
              purchase_records := some records })
      (some o) = Except.ok out) :
    ∀ r ∈ out, ∃ s ∈ sellers, r.seller_id = s.id ∧
      r.name = jsTemplateString s.first_name ++ " " ++ jsTemplateString s.last_name := by
  intro r hr
  unfold analyzeSalesData at h
  dsimp only at h
  split at h
  · cases h
  · next stats hagg =>
    cases h
    obtain ⟨t, ht, k, rfl⟩ := projectAll_mem hr
    have htm : t ∈ stats := ((jsSortDescBy_perm _ stats).mem_iff).mp ht
    unfold aggregate at hagg
    have hnames := processRecords_map_names hagg
    have hmem : (t.id, t.first_name, t.last_name) ∈
        (sellers.map initStat).map (fun t => (t.id, t.first_name, t.last_name)) := by
      rw [← hnames]
      exact List.mem_map_of_mem _ htm
    rw [List.map_map] at hmem
    obtain ⟨s, hs, hEq⟩ := List.mem_map.mp hmem
    simp only [Function.comp, initStat, Prod.mk.injEq] at hEq
    obtain ⟨h1, h2, h3⟩ := hEq
    exact ⟨s, hs, by simp [makeReport, h1], by simp [makeReport, h2, h3]⟩

/-- Witness for C10 (amended) at a concrete run. -/
theorem claim_C10_witness :
    ∃ s ∈ [sellerAL], reportW.seller_id = s.id ∧
      reportW.name = jsTemplateString s.first_name ++ " " ++ jsTemplateString s.last_name := by
  refine claim_C10_amended [sellerAL] [productP1] [] {} [reportW] ?_ reportW (by simp)
  simp [analyzeSalesData, sellerAL, productP1, aggregate, processRecords, initStat,
    jsSortDescBy, jsSortInsert, projectAll, makeReport, topProducts, jsObjectEntries_nil, jsObjectEntries_p1, jsIndexSort, jsIndexInsert, isArrayIndexKey_p1, calculateBonusByProfit,
    jsLe, jsToFixed2, jsTemplateString, reportW]
  norm_num

theorem productLookup_eq_none {products : List Product} {sku : String}
    (h : ∀ p ∈ products, p.sku ≠ sku) : productLookup products sku = none := by
  unfold productLookup
  rw [List.find?_eq_none]
  intro p hp
  simpa using h p (List.mem_reverse.mp hp)

theorem processItem_skip {cr : RevenueStrategy} {products : List Product}
    {item : PurchaseItem} (h : productLookup products item.sku = none) (s : SellerStat) :
    processItem cr products item s = Except.ok s := by
  unfold processItem
  rw [h]

theorem processItems_append {cr : RevenueStrategy} {products : List Product}
    (l1 l2 : List PurchaseItem) :
    ∀ s, processItems cr products (l1 ++ l2) s =
      match processItems cr products l1 s with
      | Except.error e => Except.error e
      | Except.ok s2 => processItems cr products l2 s2 := by
  induction l1 with
  | nil => intro s; rfl
  | cons it l1 ih =>
    intro s
    simp only [List.cons_append, processItems]
    cases hi : processItem cr products it s with
    | error e => rfl
    | ok s2 => exact ih s2

theorem processItems_skip_item {cr : RevenueStrategy} {products : List Product}
    {it : PurchaseItem} (hskip : ∀ s, processItem cr products it s = Except.ok s)
    (i1 i2 : List PurchaseItem) (s : SellerStat) :
    processItems cr products (i1 ++ it :: i2) s = processItems cr products (i1 ++ i2) s := by
  rw [processItems_append, processItems_append]
  cases h1 : processItems cr products i1 s with
  | error e => rfl
  | ok s2 =>
    show processItems cr products (it :: i2) s2 = processItems cr products i2 s2
    simp [processItems, hskip s2]

theorem processRecord_congr {cr : RevenueStrategy} {products : List Product}
    {rec1 rec2 : PurchaseRecord} (hid : rec1.seller_id = rec2.seller_id)
    (hf : ∀ s, processRecordForSeller cr products rec1 s =
      processRecordForSeller cr products rec2 s) :
    ∀ stats, processRecord cr products rec1 stats = processRecord cr products rec2 stats := by
  intro stats
  induction stats with
  | nil => rfl
  | cons s rest ih =>
    unfold processRecord
    rw [hid, ih, hf s]

/-- Disambiguated element lookup used in several proofs: every stat in an
aggregation intermediate state has the id of some input seller. -/
theorem processRecords_id_of_mem {cr : RevenueStrategy} {products : List Product}
    {records : List PurchaseRecord} {sellers : List Seller} {stats : List SellerStat}
    (h : processRecords cr products records (sellers.map initStat) = Except.ok stats) :
    ∀ t ∈ stats, ∃ s ∈ sellers, s.id = t.id := by
  intro t ht
  have hnames := processRecords_map_names h
  have hmem : (t.id, t.first_name, t.last_name) ∈
      (sellers.map initStat).map (fun t => (t.id, t.first_name, t.last_name)) := by
    rw [← hnames]
    exact List.mem_map_of_mem _ ht
  rw [List.map_map] at hmem
  obtain ⟨s, hs, hEq⟩ := List.mem_map.mp hmem
  simp only [Function.comp, initStat, Prod.mk.injEq] at hEq
  exact ⟨s, hs, hEq.1⟩

theorem aggregate_skip_record {cr : RevenueStrategy} {sellers : List Seller}
    {products : List Product} (l1 l2 : List PurchaseRecord) {rec : PurchaseRecord}
    (h : ∀ s ∈ sellers, s.id ≠ rec.seller_id) :
    aggregate cr sellers products (l1 ++ rec :: l2) =
      aggregate cr sellers products (l1 ++ l2) := by
  unfold aggregate
  rw [processRecords_append, processRecords_append]
  cases h1 : processRecords cr products l1 (sellers.map initStat) with
  | error e => rfl
  | ok stats1 =>
    show processRecords cr products (rec :: l2) stats1 = processRecords cr products l2 stats1
    have hids : ∀ t ∈ stats1, t.id ≠ rec.seller_id := by
      intro t ht hcon
      obtain ⟨s, hs, hsid⟩ := processRecords_id_of_mem h1 t ht
      exact h s hs (hsid.trans hcon)
    simp [processRecords, processRecord_skip hids]

theorem aggregate_skip_item {cr : RevenueStrategy} {sellers : List Seller}
    {products : List Product} (l1 l2 : List PurchaseRecord) (sid : String)
    (ta td : Option ℚ) (i1 i2 : List PurchaseItem) {it : PurchaseItem}
    (h : ∀ p ∈ products, p.sku ≠ it.sku) :
    aggregate cr sellers products
        (l1 ++ PurchaseRecord.mk sid ta td (i1 ++ it :: i2) :: l2) =
      aggregate cr sellers products (l1 ++ PurchaseRecord.mk sid ta td (i1 ++ i2) :: l2) := by
  unfold aggregate
  rw [processRecords_append, processRecords_append]
  cases h1 : processRecords cr products l1 (sellers.map initStat) with
  | error e => rfl
  | ok stats1 =>
    have hskip : ∀ s, processItem cr products it s = Except.ok s :=
      processItem_skip (productLookup_eq_none h)
    have hf : ∀ s, processRecordForSeller cr products (PurchaseRecord.mk sid ta td (i1 ++ it :: i2)) s =
        processRecordForSeller cr products (PurchaseRecord.mk sid ta td (i1 ++ i2)) s := by
      intro s
      unfold processRecordForSeller
      exact processItems_skip_item hskip i1 i2 _
    show processRecords cr products (PurchaseRecord.mk sid ta td (i1 ++ it :: i2) :: l2) stats1 =
      processRecords cr products (PurchaseRecord.mk sid ta td (i1 ++ i2) :: l2) stats1
    have hpr : ∀ stats, processRecord cr products
        (PurchaseRecord.mk sid ta td (i1 ++ it :: i2)) stats =
          processRecord cr products (PurchaseRecord.mk sid ta td (i1 ++ i2)) stats :=
      processRecord_congr rfl hf
    simp only [processRecords]
    rw [hpr stats1]

/-! ### Claim C7 -/

/-- C7: a purchase record whose seller id matches no seller changes
nothing (the whole run equals the run without that record), and an item
whose sku matches no product is skipped while the rest of the record is
still processed (the run equals the run with that item removed). -/
theorem claim_C7 :
    (∀ (cr : RevenueStrategy) (cb : BonusStrategy) (sellers : List Seller)
      (products : List Product) (l1 l2 : List PurchaseRecord) (rec : PurchaseRecord),
      (∀ s ∈ sellers, s.id ≠ rec.seller_id) →
      analyzeSalesData
          (some { sellers := some sellers, products := some products,
                  purchase_records := some (l1 ++ rec :: l2) })
          (some { calculateRevenue := some cr, calculateBonus := some cb }) =
        analyzeSalesData
          (some { sellers := some sellers, products := some products,
                  purchase_records := some (l1 ++ l2) })
          (some { calculateRevenue := some cr, calculateBonus := some cb })) ∧
    (∀ (cr : RevenueStrategy) (cb : BonusStrategy) (sellers : List Seller)
      (products : List Product) (l1 l2 : List PurchaseRecord) (sid : String)
      (ta td : Option ℚ) (i1 i2 : List PurchaseItem) (it : PurchaseItem),
      (∀ p ∈ products, p.sku ≠ it.sku) →
      analyzeSalesData
          (some { sellers := some sellers, products := some products,
                  purchase_records := some (l1 ++ PurchaseRecord.mk sid ta td (i1 ++ it :: i2) :: l2) })
          (some { calculateRevenue := some cr, calculateBonus := some cb }) =
        analyzeSalesData
          (some { sellers := some sellers, products := some products,
                  purchase_records := some (l1 ++ PurchaseRecord.mk sid ta td (i1 ++ i2) :: l2) })
          (some { calculateRevenue := some cr, calculateBonus := some cb })) := by
  constructor
  · intro cr cb sellers products l1 l2 rec h
    unfold analyzeSalesData
    dsimp only [Option.getD]
    rw [aggregate_skip_record l1 l2 h]
  · intro cr cb sellers products l1 l2 sid ta td i1 i2 it h
    unfold analyzeSalesData
    dsimp only [Option.getD]
    rw [aggregate_skip_item l1 l2 sid ta td i1 i2 h]

/-- Witness for C7: both halves applied at concrete inputs. -/
theorem claim_C7_witness :
    (analyzeSalesData
        (some { sellers := some [sellerAL], products := some [productP1],
                purchase_records := some [recordZZ] })
        (some { calculateRevenue := some calculateSimpleRevenue,
                calculateBonus := some calculateBonusByProfit }) =
      analyzeSalesData
        (some { sellers := some [sellerAL], products := some [productP1],
                purchase_records := some [] })
        (some { calculateRevenue := some calculateSimpleRevenue,
                calculateBonus := some calculateBonusByProfit })) ∧
    (analyzeSalesData
        (some { sellers := some [sellerAL], products := some [productP1],
                purchase_records := some [PurchaseRecord.mk "s1" (some 4) (some 1) [itemNope]] })
        (some { calculateRevenue := some calculateSimpleRevenue,
                calculateBonus := some calculateBonusByProfit }) =
      analyzeSalesData
        (some { sellers := some [sellerAL], products := some [productP1],
                purchase_records := some [PurchaseRecord.mk "s1" (some 4) (some 1) []] })
        (some { calculateRevenue := some calculateSimpleRevenue,
                calculateBonus := some calculateBonusByProfit })) :=
  ⟨claim_C7.1 calculateSimpleRevenue calculateBonusByProfit [sellerAL] [productP1] [] []
      recordZZ (by simp [sellerAL, recordZZ]),
    claim_C7.2 calculateSimpleRevenue calculateBonusByProfit [sellerAL] [productP1] [] []
      "s1" (some 4) (some 1) [] [] itemNope (by simp [productP1, itemNope])⟩

theorem projectAll_mem_of_mem {cb : BonusStrategy} {total : ℕ} :
    ∀ {i : ℕ} {l : List SellerStat} {t : SellerStat}, t ∈ l →
      ∃ k, makeReport cb total k t ∈ projectAll cb total i l := by
  intro i l
  induction l generalizing i with
  | nil => intro t ht; cases ht
  | cons s rest ih =>
    intro t ht
    rcases List.mem_cons.mp ht with rfl | ht
    · exact ⟨i, List.mem_cons_self _ _⟩
    · obtain ⟨k, hk⟩ := ih ht
      exact ⟨k, List.mem_cons_of_mem _ hk⟩

/-! ### Claim C4 -/

/-- C4: the output has one report per input seller, and a seller matched
by no purchase record comes out with all-zero stats, empty top products
and bonus 0 (under the default strategies). -/
theorem claim_C4 (sellers : List Seller) (products : List Product)
    (records : List PurchaseRecord) (out : List SellerReport)
    (h : analyzeSalesData
      (some { sellers := some sellers, products := some products,
              purchase_records := some records })
      (some { calculateRevenue := none, calculateBonus := none }) = Except.ok out) :
    out.length = sellers.length ∧
    ∀ s ∈ sellers, (∀ rec ∈ records, rec.seller_id ≠ s.id) →
      (∃ r ∈ out, r.seller_id = s.id) ∧
      ∀ r ∈ out, r.seller_id = s.id →
        r.sales_count = 0 ∧ r.revenue = some 0 ∧ r.profit = some 0 ∧
          r.top_products = [] ∧ r.bonus = some 0 := by
  unfold analyzeSalesData at h
  dsimp only [Option.getD] at h
  split at h
  · cases h
  · next stats hagg =>
    cases h
    unfold aggregate at hagg
    have hlen : (jsSortDescBy (fun s => s.profit) stats).length = sellers.length := by
      rw [(jsSortDescBy_perm _ stats).length_eq, processRecords_length hagg,
        List.length_map]
    constructor
    · rw [projectAll_length, hlen]
    · intro s hs hno
      have hQ : ∀ t ∈ stats, t.id = s.id →
          t.sales_count = 0 ∧ t.revenue = some 0 ∧ t.profit = some 0 ∧
            t.products_sold = [] := by
        have := processRecords_mem_inv
          (fun t => t.id = s.id → t.sales_count = 0 ∧ t.revenue = some 0 ∧
            t.profit = some 0 ∧ t.products_sold = [])
          (fun record hrec t t' hid hupd _ => by
            intro hts
            obtain ⟨h1, _, _⟩ := processRecordForSeller_ok_names hupd
            exact absurd (hid.symm.trans (h1.symm.trans hts)) (hno record hrec))
          hagg
          (fun t ht => by
            obtain ⟨s0, _, rfl⟩ := List.mem_map.mp ht
            intro _
            exact ⟨rfl, rfl, rfl, rfl⟩)
        exact fun t ht => this t ht
      have hQsorted : ∀ t ∈ jsSortDescBy (fun s => s.profit) stats, t.id = s.id →
          t.sales_count = 0 ∧ t.revenue = some 0 ∧ t.profit = some 0 ∧
            t.products_sold = [] :=
        fun t ht => hQ t ((jsSortDescBy_perm _ stats).mem_iff.mp ht)
      constructor
      · -- existence: some stat carries this seller's id
        have hnames := processRecords_map_names hagg
        have hmem : ((initStat s).id, (initStat s).first_name, (initStat s).last_name) ∈
            stats.map (fun t => (t.id, t.first_name, t.last_name)) := by
          rw [hnames]
          exact List.mem_map_of_mem _ (List.mem_map_of_mem _ hs)
        obtain ⟨t, ht, hEq⟩ := List.mem_map.mp hmem
        have htid : t.id = s.id := by
          have := congrArg Prod.fst hEq
          simpa [initStat] using this
        have htsort : t ∈ jsSortDescBy (fun s => s.profit) stats :=
          (jsSortDescBy_perm _ stats).mem_iff.mpr ht
        obtain ⟨k, hk⟩ := projectAll_mem_of_mem htsort
        exact ⟨_, hk, htid⟩
      · intro r hr hrid
        obtain ⟨t, ht, k, rfl⟩ := projectAll_mem hr
        have htid : t.id = s.id := hrid
        obtain ⟨hz1, hz2, hz3, hz4⟩ := hQsorted t ht htid
        refine ⟨hz1, ?_, ?_, ?_, ?_⟩
        · show jsToFixed2 t.revenue = some 0
          rw [hz2, jsToFixed2_zero]
        · show jsToFixed2 t.profit = some 0
          rw [hz3, jsToFixed2_zero]
        · show topProducts t.products_sold = []
          rw [hz4, topProducts_nil]
        · show jsToFixed2 (calculateBonusByProfit _ _ t) = some 0
          rw [calculateBonusByProfit_zero hz3, jsToFixed2_zero]

/-- Witness for C4 at a concrete two-seller run. -/
theorem claim_C4_witness :
    ([reportS1C4, reportS2C4] : List SellerReport).length =
        ([sellerAL, sellerAnnOnly] : List Seller).length ∧
      ∀ s ∈ [sellerAL, sellerAnnOnly], (∀ rec ∈ [recordC5], rec.seller_id ≠ s.id) →
        (∃ r ∈ [reportS1C4, reportS2C4], r.seller_id = s.id) ∧
        ∀ r ∈ [reportS1C4, reportS2C4], r.seller_id = s.id →
          r.sales_count = 0 ∧ r.revenue = some 0 ∧ r.profit = some 0 ∧
            r.top_products = [] ∧ r.bonus = some 0 :=
  claim_C4 [sellerAL, sellerAnnOnly] [productP1] [recordC5] [reportS1C4, reportS2C4] (by
    simp [analyzeSalesData, sellerAL, sellerAnnOnly, recordC5, itemP1, productP1, aggregate,
      processRecords, processRecord, processRecordForSeller, processItems, processItem,
      productLookup, updateProductsSold, initStat, jsSortDescBy, jsSortInsert, topProducts, jsObjectEntries_nil, jsObjectEntries_p1, jsIndexSort, jsIndexInsert, isArrayIndexKey_p1,
      projectAll, makeReport, calculateSimpleRevenue, calculateBonusByProfit, jsAdd, jsSub,
      jsMul, jsLt, jsLe, truthyNum, jsMathRound, jsToFixed2, jsTemplateString, Option.getD,
      reportS1C4, reportS2C4]
    norm_num [jsSortDescBy, jsSortInsert, projectAll, makeReport, topProducts, jsObjectEntries_nil, jsObjectEntries_p1, jsIndexSort, jsIndexInsert, isArrayIndexKey_p1, jsToFixed2,
      calculateBonusByProfit, jsLe, jsLt, jsMathRound, jsTemplateString, updateProductsSold]
    exact ⟨rfl, rfl⟩)

theorem productLookup_mem {products : List Product} {sku : String} {p : Product}
    (h : productLookup products sku = some p) : p ∈ products := by
  unfold productLookup at h
  exact List.mem_reverse.mp (List.mem_of_find?_eq_some h)

theorem jsAdd_isSome {a b : Option ℚ} (ha : a.isSome = true) (hb : b.isSome = true) :
    (jsAdd a b).isSome = true := by
  cases a <;> cases b <;> simp_all [jsAdd]

theorem jsSub_isSome {a b : Option ℚ} (ha : a.isSome = true) (hb : b.isSome = true) :
    (jsSub a b).isSome = true := by
  cases a <;> cases b <;> simp_all [jsSub]

theorem jsMul_isSome {a b : Option ℚ} (ha : a.isSome = true) (hb : b.isSome = true) :
    (jsMul a b).isSome = true := by
  cases a <;> cases b <;> simp_all [jsMul]

theorem processItem_profit_some {cr : RevenueStrategy} {products : List Product}
    {item : PurchaseItem} {s s2 : SellerStat}
    (hpp : ∀ p ∈ products, (p.purchase_price).isSome = true)
    (hq : (item.quantity).isSome = true)
    (h : processItem cr products item s = Except.ok s2)
    (hs : (s.profit).isSome = true) : (s2.profit).isSome = true := by
  unfold processItem at h
  cases hl : productLookup products item.sku with
  | none =>
    rw [hl] at h
    cases h
    exact hs
  | some p =>
    rw [hl] at h
    dsimp only at h
    cases hcr : cr item p with
    | error e =>
      rw [hcr] at h
      cases h
    | ok r =>
      rw [hcr] at h
      cases h
      exact jsAdd_isSome hs
        (jsSub_isSome rfl (jsMul_isSome (hpp p (productLookup_mem hl)) hq))

theorem processItems_profit_some {cr : RevenueStrategy} {products : List Product}
    (hpp : ∀ p ∈ products, (p.purchase_price).isSome = true) :
    ∀ {items : List PurchaseItem} {s s2 : SellerStat},
      (∀ it ∈ items, (it.quantity).isSome = true) →
      processItems cr products items s = Except.ok s2 →
      (s.profit).isSome = true → (s2.profit).isSome = true := by
  intro items
  induction items with
  | nil =>
    intro s s2 _ h hs
    cases h
    exact hs
  | cons it rest ih =>
    intro s s2 hq h hs
    unfold processItems at h
    split at h
    · cases h
    · next sm hi =>
      exact ih (fun x hx => hq x (List.mem_cons_of_mem _ hx)) h
        (processItem_profit_some hpp (hq it (List.mem_cons_self _ _)) hi hs)

/-! ### Claim C3 -/

/-- C3 counterexample: a valid input (absent `purchase_price` is valid
per the data model) on which `analyzeSalesData` returns normally but the
first report's profit is NaN, so the adjacent comparison
`r[0].profit >= r[1].profit` claimed by C3 is false (NaN compares false
in JS; in the model the profit is not `some` of any rational). -/
theorem claim_C3_counterexample :
    analyzeSalesData (some dataC3ce) (some {}) = Except.ok [reportC3a, reportC3b] ∧
      ¬ List.Chain' (fun r r2 => ∃ a b, r.profit = some a ∧ r2.profit = some b ∧ b ≤ a)
        [reportC3a, reportC3b] := by
  constructor
  · simp [analyzeSalesData, dataC3ce, sellerAL, sellerAnnOnly, recordC5, itemP1,
      productNoPrice, aggregate, processRecords, processRecord, processRecordForSeller,
      processItems, processItem, productLookup, updateProductsSold, initStat, jsSortDescBy,
      jsSortInsert, topProducts, jsObjectEntries_nil, jsObjectEntries_p1, jsIndexSort,
      jsIndexInsert, isArrayIndexKey_p1, projectAll, makeReport, calculateSimpleRevenue,
      calculateBonusByProfit, jsAdd, jsSub, jsMul, jsLt, jsLe, truthyNum, jsMathRound,
      jsToFixed2, jsTemplateString, Option.getD, reportC3a, reportC3b]
    norm_num [jsSortDescBy, jsSortInsert, projectAll, makeReport, topProducts,
      jsObjectEntries_nil, jsObjectEntries_p1, jsIndexSort, jsIndexInsert, isArrayIndexKey_p1,
      jsToFixed2, calculateBonusByProfit, jsLe, jsLt, jsMathRound, jsTemplateString,
      updateProductsSold]
    exact ⟨rfl, rfl⟩
  · intro hc
    rcases (List.chain'_cons.mp hc).1 with ⟨a, b, ha, hb, hle⟩
    simp [reportC3a] at ha

/-- C3 (amended): on numeric-complete input (every product has a
`purchase_price` and every item a `quantity`, so no profit degenerates to
NaN), the output of `analyzeSalesData` is sorted by `profit` descending:
any two adjacent reports satisfy `r[i].profit >= r[i+1].profit`.  With an
absent `purchase_price` the affected profit is NaN and the claimed
comparison fails (see the counterexample). -/
theorem claim_C3_amended (sellers : List Seller) (products : List Product)
    (records : List PurchaseRecord) (o : Options) (out : List SellerReport)
    (hpp : ∀ p ∈ products, (p.purchase_price).isSome = true)
    (hqty : ∀ rec ∈ records, ∀ it ∈ rec.items, (it.quantity).isSome = true)
    (h : analyzeSalesData
      (some { sellers := some sellers, products := some products,
              purchase_records := some records })
      (some o) = Except.ok out) :
    List.Chain' (fun r r2 => ∃ a b, r.profit = some a ∧ r2.profit = some b ∧ b ≤ a) out := by
  unfold analyzeSalesData at h
  dsimp only at h
  split at h
  · cases h
  · next stats hagg =>
    cases h
    unfold aggregate at hagg
    have hsome : ∀ t ∈ stats, (t.profit).isSome = true := by
      refine processRecords_mem_inv (fun t => (t.profit).isSome = true)
        (fun record hrec t t2 _ hupd hQ => ?_) hagg
        (fun t ht => ?_)
      · unfold processRecordForSeller at hupd
        exact processItems_profit_some hpp (hqty record hrec) hupd (by simpa using hQ)
      · obtain ⟨s0, _, rfl⟩ := List.mem_map.mp ht
        rfl
    have hpw := jsSortDescBy_pairwise (fun s : SellerStat => s.profit) stats
    have hsomeSorted : ∀ t ∈ jsSortDescBy (fun s : SellerStat => s.profit) stats,
        (t.profit).isSome = true :=
      fun t ht => hsome t ((jsSortDescBy_perm _ stats).mem_iff.mp ht)
    have hpw2 : (jsSortDescBy (fun s : SellerStat => s.profit) stats).Pairwise
        (fun a b => ∃ pa pb, a.profit = some pa ∧ b.profit = some pb ∧ pb ≤ pa) := by
      refine hpw.imp_of_mem ?_
      intro a b ha hb hlt
      obtain ⟨pa, hpa⟩ := Option.isSome_iff_exists.mp (hsomeSorted a ha)
      obtain ⟨pb, hpb⟩ := Option.isSome_iff_exists.mp (hsomeSorted b hb)
      rw [hpa, hpb, jsLt_some_iff_false] at hlt
      exact ⟨pa, pb, hpa, hpb, hlt⟩
    refine projectAll_chain' ?_ _ 0 hpw2.chain'
    intro a b i j hS
    obtain ⟨pa, pb, hpa, hpb, hle⟩ := hS
    refine ⟨((⌊pa * 100 + 1 / 2⌋ : ℤ) : ℚ) / 100, ((⌊pb * 100 + 1 / 2⌋ : ℤ) : ℚ) / 100, ?_, ?_, ?_⟩
    · show jsToFixed2 a.profit = _
      rw [hpa]
      rfl
    · show jsToFixed2 b.profit = _
      rw [hpb]
      rfl
    · have hfl : ⌊pb * 100 + 1 / 2⌋ ≤ ⌊pa * 100 + 1 / 2⌋ :=
        Int.floor_le_floor (by linarith)
      have : ((⌊pb * 100 + 1 / 2⌋ : ℤ) : ℚ) ≤ ((⌊pa * 100 + 1 / 2⌋ : ℤ) : ℚ) := by
        exact_mod_cast hfl
      linarith

/-- Witness for C3 at a concrete two-seller run (profits 3 and 0). -/
theorem claim_C3_witness :
    List.Chain' (fun r r2 => ∃ a b, r.profit = some a ∧ r2.profit = some b ∧ b ≤ a)
      [reportS1C4, reportS2C4] :=
  claim_C3_amended [sellerAL, sellerAnnOnly] [productP1] [recordC5]
    { calculateRevenue := none, calculateBonus := none } [reportS1C4, reportS2C4]
    (by simp [productP1])
    (by simp [recordC5, itemP1])
    (by
      simp [analyzeSalesData, sellerAL, sellerAnnOnly, recordC5, itemP1, productP1, aggregate,
        processRecords, processRecord, processRecordForSeller, processItems, processItem,
        productLookup, updateProductsSold, initStat, jsSortDescBy, jsSortInsert, topProducts, jsObjectEntries_nil, jsObjectEntries_p1, jsIndexSort, jsIndexInsert, isArrayIndexKey_p1,
        projectAll, makeReport, calculateSimpleRevenue, calculateBonusByProfit, jsAdd, jsSub,
        jsMul, jsLt, jsLe, truthyNum, jsMathRound, jsToFixed2, jsTemplateString, Option.getD,
        reportS1C4, reportS2C4]
      norm_num [jsSortDescBy, jsSortInsert, projectAll, makeReport, topProducts, jsObjectEntries_nil, jsObjectEntries_p1, jsIndexSort, jsIndexInsert, isArrayIndexKey_p1, jsToFixed2,
        calculateBonusByProfit, jsLe, jsLt, jsMathRound, jsTemplateString, updateProductsSold]
      exact ⟨rfl, rfl⟩)

theorem calculateSimpleRevenue_ok_quantity {it : PurchaseItem} {prod : Product} {r : ℚ}
    (h : calculateSimpleRevenue it prod = Except.ok r) : (it.quantity).isSome = true := by
  unfold calculateSimpleRevenue at h
  cases hsp : it.sale_price with
  | none => rw [hsp] at h; cases h
  | some p =>
    cases hq : it.quantity with
    | none => rw [hsp, hq] at h; cases h
    | some q => rfl

theorem updateProductsSold_values_some {sku : String} {q : Option ℚ}
    (hq : q.isSome = true) {ps : List (String × Option ℚ)}
    (hps : ∀ e ∈ ps, (e.2).isSome = true) :
    ∀ e ∈ updateProductsSold sku q ps, (e.2).isSome = true := by
  intro e he
  unfold updateProductsSold at he
  split at he
  · obtain ⟨e0, he0, hmap⟩ := List.mem_map.mp he
    by_cases hsku : e0.1 = sku
    · rw [if_pos hsku] at hmap
      subst hmap
      refine jsAdd_isSome ?_ hq
      split
      · exact hps e0 he0
      · rfl
    · rw [if_neg hsku] at hmap
      subst hmap
      exact hps e0 he0
  · rcases List.mem_append.mp he with he | he
    · exact hps e he
    · rcases List.mem_singleton.mp he with rfl
      exact jsAdd_isSome rfl hq

theorem processItem_products_sold_some {products : List Product}
    {item : PurchaseItem} {s s2 : SellerStat}
    (h : processItem calculateSimpleRevenue products item s = Except.ok s2)
    (hs : ∀ e ∈ s.products_sold, (e.2).isSome = true) :
    ∀ e ∈ s2.products_sold, (e.2).isSome = true := by
  unfold processItem at h
  cases hl : productLookup products item.sku with
  | none =>
    rw [hl] at h
    cases h
    exact hs
  | some p =>
    rw [hl] at h
    dsimp only at h
    cases hcr : calculateSimpleRevenue item p with
    | error e =>
      rw [hcr] at h
      cases h
    | ok r =>
      rw [hcr] at h
      cases h
      exact updateProductsSold_values_some (calculateSimpleRevenue_ok_quantity hcr) hs

theorem processItems_products_sold_some {products : List Product} :
    ∀ {items : List PurchaseItem} {s s2 : SellerStat},
      processItems calculateSimpleRevenue products items s = Except.ok s2 →
      (∀ e ∈ s.products_sold, (e.2).isSome = true) →
      ∀ e ∈ s2.products_sold, (e.2).isSome = true := by
  intro items
  induction items with
  | nil =>
    intro s s2 h hs
    cases h
    exact hs
  | cons it rest ih =>
    intro s s2 h hs
    unfold processItems at h
    split at h
    · cases h
    · next sm hi => exact ih h (processItem_products_sold_some hi hs)

theorem jsIndexInsert_perm {α : Type _} (x : String × α) (l : List (String × α)) :
    (jsIndexInsert x l).Perm (x :: l) := by
  induction l with
  | nil => simp [jsIndexInsert]
  | cons y l ih =>
    simp only [jsIndexInsert]
    split
    · exact List.Perm.refl _
    · exact (ih.cons y).trans (List.Perm.swap x y l)

theorem jsIndexSort_perm {α : Type _} (l : List (String × α)) : (jsIndexSort l).Perm l := by
  have main : ∀ (l acc : List (String × α)),
      (List.foldl (fun acc x => jsIndexInsert x acc) acc l).Perm (acc ++ l) := by
    intro l
    induction l with
    | nil => intro acc; simp
    | cons x l ih =>
      intro acc
      simp only [List.foldl_cons]
      refine (ih (jsIndexInsert x acc)).trans ?_
      refine ((jsIndexInsert_perm x acc).append_right l).trans ?_
      exact List.perm_middle.symm
  simpa using main l []

theorem jsObjectEntries_mem {α : Type _} {ps : List (String × α)} {e : String × α}
    (h : e ∈ jsObjectEntries ps) : e ∈ ps := by
  unfold jsObjectEntries at h
  rcases List.mem_append.mp h with h | h
  · exact List.mem_of_mem_filter ((jsIndexSort_perm _).mem_iff.mp h)
  · exact List.mem_of_mem_filter h

theorem topProducts_spec {ps : List (String × Option ℚ)}
    (hq : ∀ e ∈ ps, (e.2).isSome = true) :
    (topProducts ps).length ≤ 10 ∧
      List.Chain' (fun a b => ∃ qa qb, a.quantity = some qa ∧ b.quantity = some qb ∧ qb ≤ qa)
        (topProducts ps) := by
  unfold topProducts
  constructor
  · exact List.length_take_le _ _
  · have hpw := jsSortDescBy_pairwise (fun t : TopProduct => t.quantity)
      ((jsObjectEntries ps).map (fun e => TopProduct.mk e.1 e.2))
    have hsome : ∀ t ∈ jsSortDescBy (fun t : TopProduct => t.quantity)
        ((jsObjectEntries ps).map (fun e => TopProduct.mk e.1 e.2)), (t.quantity).isSome = true := by
      intro t ht
      have := (jsSortDescBy_perm _ _).mem_iff.mp ht
      obtain ⟨e, he, rfl⟩ := List.mem_map.mp this
      exact hq e (jsObjectEntries_mem he)
    have hpw2 : (jsSortDescBy (fun t : TopProduct => t.quantity)
        ((jsObjectEntries ps).map (fun e => TopProduct.mk e.1 e.2))).Pairwise
        (fun a b => ∃ qa qb, a.quantity = some qa ∧ b.quantity = some qb ∧ qb ≤ qa) := by
      refine hpw.imp_of_mem ?_
      intro a b ha hb hlt
      obtain ⟨qa, hqa⟩ := Option.isSome_iff_exists.mp (hsome _ ha)
      obtain ⟨qb, hqb⟩ := Option.isSome_iff_exists.mp (hsome _ hb)
      rw [hqa, hqb, jsLt_some_iff_false] at hlt
      exact ⟨qa, qb, hqa, hqb, hlt⟩
    exact (List.Pairwise.sublist (List.take_sublist 10 _) hpw2).chain'

/-! ### Claim C8 -/

theorem isArrayIndexKey_42 : isArrayIndexKey "42" = true := by decide

theorem isArrayIndexKey_7 : isArrayIndexKey "7" = true := by decide

theorem keyToNat_42 : keyToNat "42" = 42 := by decide

theorem keyToNat_7 : keyToNat "7" = 7 := by decide

theorem sku42_ne_sku7 : (("42" : String) = "7") ↔ False := by decide

theorem sku7_ne_sku42 : (("7" : String) = "42") ↔ False := by decide

/-- C8 counterexample: a seller sells sku "42" then sku "7" with equal
quantities.  `Object.entries` enumerates array-index-like keys first in
ASCENDING NUMERIC order, so the entries come out "7", "42" and the stable
quantity sort keeps that — not the first-seen insertion order "42", "7"
that the claim asserts for ties. -/
theorem claim_C8_counterexample :
    analyzeSalesData (some dataC8) (some {}) = Except.ok [reportC8] ∧
      reportC8.top_products ≠
        [TopProduct.mk "42" (some 1), TopProduct.mk "7" (some 1)] := by
  constructor
  · simp [analyzeSalesData, dataC8, sellerAL, recordC8, item42, item7, product42, product7,
      aggregate, processRecords, processRecord, processRecordForSeller, processItems,
      processItem, productLookup, updateProductsSold, initStat, jsSortDescBy, jsSortInsert,
      topProducts, jsObjectEntries, jsIndexSort, jsIndexInsert, isArrayIndexKey_42,
      isArrayIndexKey_7, keyToNat_42, keyToNat_7, projectAll, makeReport,
      calculateSimpleRevenue, calculateBonusByProfit, jsAdd, jsSub, jsMul, jsLt, jsLe,
      truthyNum, jsMathRound, jsToFixed2, jsTemplateString, Option.getD, reportC8,
      sku42_ne_sku7, sku7_ne_sku42]
    norm_num [jsSortDescBy, jsSortInsert, projectAll, makeReport, topProducts,
      jsObjectEntries, jsIndexSort, jsIndexInsert, isArrayIndexKey_42, isArrayIndexKey_7,
      keyToNat_42, keyToNat_7, jsToFixed2, calculateBonusByProfit, jsLe, jsLt, jsMathRound,
      jsTemplateString, updateProductsSold]
    norm_num [jsSortDescBy, jsSortInsert, jsIndexSort, jsIndexInsert, isArrayIndexKey_42,
      isArrayIndexKey_7, keyToNat_42, keyToNat_7, jsLt, sku42_ne_sku7, sku7_ne_sku42]
    rfl
  · decide

/-- C8 (amended): every report's `top_products` has at most 10 entries,
sorted by quantity descending; the sort is stable, so entries of equal
quantity keep the `Object.entries` ENUMERATION order of `products_sold` —
array-index-like skus first in ascending numeric order, then the
remaining skus in first-seen insertion order (not plain insertion order,
as the claim states). -/
theorem claim_C8_amended :
    (∀ (sellers : List Seller) (products : List Product) (records : List PurchaseRecord)
      (cb : Option BonusStrategy) (out : List SellerReport),
      analyzeSalesData
        (some { sellers := some sellers, products := some products,
                purchase_records := some records })
        (some { calculateRevenue := none, calculateBonus := cb }) = Except.ok out →
      ∀ r ∈ out, r.top_products.length ≤ 10 ∧
        List.Chain' (fun a b => ∃ qa qb, a.quantity = some qa ∧ b.quantity = some qb ∧ qb ≤ qa)
          r.top_products) ∧
    (∀ (ps : List (String × Option ℚ)) (v : ℚ),
      (jsSortDescBy (fun t : TopProduct => t.quantity)
          ((jsObjectEntries ps).map (fun e => TopProduct.mk e.1 e.2))).filter
          (fun t => decide (t.quantity = some v)) =
        ((jsObjectEntries ps).map (fun e => TopProduct.mk e.1 e.2)).filter
          (fun t => decide (t.quantity = some v))) := by
  constructor
  · intro sellers products records cb out h r hr
    unfold analyzeSalesData at h
    dsimp only [Option.getD] at h
    split at h
    · cases h
    · next stats hagg =>
      cases h
      unfold aggregate at hagg
      have hsome : ∀ t ∈ stats, ∀ e ∈ t.products_sold, (e.2).isSome = true := by
        refine processRecords_mem_inv (fun t => ∀ e ∈ t.products_sold, (e.2).isSome = true)
          (fun record hrec t t2 _ hupd hQ => ?_) hagg (fun t ht => ?_)
        · unfold processRecordForSeller at hupd
          exact processItems_products_sold_some hupd (by simpa using hQ)
        · obtain ⟨s0, _, rfl⟩ := List.mem_map.mp ht
          intro e he
          cases he
      obtain ⟨t, ht, k, rfl⟩ := projectAll_mem hr
      have htm : t ∈ stats := (jsSortDescBy_perm _ stats).mem_iff.mp ht
      exact topProducts_spec (hsome t htm)
  · intro ps v
    exact jsSortDescBy_filter _ _ v

/-- Witness for C8 at the concrete two-seller run. -/
theorem claim_C8_witness :
    reportS1C4.top_products.length ≤ 10 ∧
      List.Chain' (fun a b => ∃ qa qb, a.quantity = some qa ∧ b.quantity = some qb ∧ qb ≤ qa)
        reportS1C4.top_products :=
  claim_C8_amended.1 [sellerAL, sellerAnnOnly] [productP1] [recordC5] none
    [reportS1C4, reportS2C4]
    (by
      simp [analyzeSalesData, sellerAL, sellerAnnOnly, recordC5, itemP1, productP1, aggregate,
        processRecords, processRecord, processRecordForSeller, processItems, processItem,
        productLookup, updateProductsSold, initStat, jsSortDescBy, jsSortInsert, topProducts, jsObjectEntries_nil, jsObjectEntries_p1, jsIndexSort, jsIndexInsert, isArrayIndexKey_p1,
        projectAll, makeReport, calculateSimpleRevenue, calculateBonusByProfit, jsAdd, jsSub,
        jsMul, jsLt, jsLe, truthyNum, jsMathRound, jsToFixed2, jsTemplateString, Option.getD,
        reportS1C4, reportS2C4]
      norm_num [jsSortDescBy, jsSortInsert, projectAll, makeReport, topProducts, jsObjectEntries_nil, jsObjectEntries_p1, jsIndexSort, jsIndexInsert, isArrayIndexKey_p1, jsToFixed2,
        calculateBonusByProfit, jsLe, jsLt, jsMathRound, jsTemplateString, updateProductsSold]
      exact ⟨rfl, rfl⟩)
    reportS1C4 (List.mem_cons_self _ _)
